import Mathlib

/-!
Verification of the mcp-gateway frontend and gateway core against its
design specification.  The TypeScript sources under `packages/frontend/src`
are embedded shallowly: JavaScript values flowing through the validated
code paths are modelled by a `Json` inductive together with JavaScript
truthiness and `typeof`-style tests, React component state is modelled by
structures with explicit event/step functions, and the axios interceptor
pipeline is modelled by explicit dispatch functions.  The Python backend
(registry, agent loop) is not part of the tree; where a claim depends on
it, the definitions are modelled from the specification and the backend
documentation, and are marked as such in their doc comments.
-/

/-- A JavaScript/JSON value as it flows through the frontend validation
code.  Numbers are modelled as integers: none of the embedded code paths
performs arithmetic on spec values, only truthiness tests. -/
inductive Json where
  | null
  | bool (b : Bool)
  | num (n : Int)
  | str (s : String)
  | arr (elems : List Json)
  | obj (fields : List (String × Json))

/-- JavaScript truthiness of a value.  `null`/`undefined`, `false`, `0` and
the empty string are falsy; every array and object is truthy. -/
def Json.truthy : Json → Bool
  | .null => false
  | .bool b => b
  | .num n => n != 0
  | .str s => s != ""
  | .arr _ => true
  | .obj _ => true

/-- JavaScript `typeof x === 'object'`: true for objects, arrays and
`null`, false for primitives. -/
def Json.isObjectType : Json → Bool
  | .null => true
  | .arr _ => true
  | .obj _ => true
  | _ => false

/-- JavaScript property access `j.k`: field lookup on objects; any miss or
access on a non-object yields an absent value, which we collapse to `null`
(the embedded code only ever tests such results for truthiness, on which
`null` and `undefined` agree). -/
def Json.get (j : Json) (k : String) : Json :=
  match j with
  | .obj fields =>
    match fields.lookup k with
    | some v => v
    | none => .null
  | _ => .null

/-- `ApiService.validateOpenAPISpec` (packages/frontend/src/services/api.ts):
`spec && typeof spec === 'object' && spec.openapi && spec.info &&
spec.info.title && spec.info.version && spec.paths &&
typeof spec.paths === 'object'`, coerced to a boolean by its callers. -/
def validateOpenAPISpec (spec : Json) : Bool :=
  spec.truthy && spec.isObjectType &&
  (spec.get "openapi").truthy &&
  (spec.get "info").truthy &&
  ((spec.get "info").get "title").truthy &&
  ((spec.get "info").get "version").truthy &&
  (spec.get "paths").truthy &&
  (spec.get "paths").isObjectType

/-- The acceptance condition exactly as the specification words it: "a
title, a version, and at least one path/operation".  Stated from the
spec's words, for comparison with `validateOpenAPISpec`. -/
def specMinimumShape (spec : Json) : Bool :=
  ((spec.get "info").get "title").truthy &&
  ((spec.get "info").get "version").truthy &&
  (match spec.get "paths" with
   | .obj fields => !fields.isEmpty
   | _ => false)

/-- A candidate spec with a title, a version, an `openapi` marker and an
empty `paths` object: it declares no path/operation at all. -/
def emptyPathsSpec : Json :=
  .obj [("openapi", .str "3.0.0"),
        ("info", .obj [("title", .str "Employee API"), ("version", .str "1.0.0")]),
        ("paths", .obj [])]

/-- C1, counterexample: `validateOpenAPISpec` accepts a spec whose `paths`
object is empty, although the claimed minimum shape requires at least one
path/operation; so acceptance is not equivalent to the claimed shape. -/
theorem validateOpenAPISpec_accepts_empty_paths :
    validateOpenAPISpec emptyPathsSpec = true ∧
    specMinimumShape emptyPathsSpec = false := by
  constructor <;> rfl

/-- C1 (amended): validation accepts a candidate spec iff it is a JSON
object with a truthy `openapi` field, a truthy `info` member whose `title`
and `version` are truthy, and a truthy `paths` member of object type —
possibly with zero paths.  Having at least one path/operation is not
required, and a truthy `openapi` field is additionally required. -/
theorem validateOpenAPISpec_characterization (spec : Json) :
    validateOpenAPISpec spec = true ↔
      ((∃ fields, spec = Json.obj fields) ∧
       (spec.get "openapi").truthy = true ∧
       (spec.get "info").truthy = true ∧
       ((spec.get "info").get "title").truthy = true ∧
       ((spec.get "info").get "version").truthy = true ∧
       (spec.get "paths").truthy = true ∧
       (spec.get "paths").isObjectType = true) := by
  constructor
  · intro h
    simp only [validateOpenAPISpec, Bool.and_eq_true] at h
    obtain ⟨⟨⟨⟨⟨⟨⟨h1, h2⟩, h3⟩, h4⟩, h5⟩, h6⟩, h7⟩, h8⟩ := h
    refine ⟨?_, h3, h4, h5, h6, h7, h8⟩
    cases spec with
    | obj fields => exact ⟨fields, rfl⟩
    | null => simp [Json.truthy] at h1
    | bool b => simp [Json.isObjectType] at h2
    | num n => simp [Json.isObjectType] at h2
    | str s => simp [Json.isObjectType] at h2
    | arr elems => simp [Json.get, Json.truthy] at h3
  · rintro ⟨⟨fields, rfl⟩, h3, h4, h5, h6, h7, h8⟩
    simp only [validateOpenAPISpec, Bool.and_eq_true]
    exact ⟨⟨⟨⟨⟨⟨⟨rfl, rfl⟩, h3⟩, h4⟩, h5⟩, h6⟩, h7⟩, h8⟩

/-- C1, instantiation of the amended characterization at a concrete
accepted spec. -/
theorem validateOpenAPISpec_characterization_witness :
    (∃ fields, emptyPathsSpec = Json.obj fields) ∧
    (emptyPathsSpec.get "openapi").truthy = true ∧
    (emptyPathsSpec.get "info").truthy = true ∧
    ((emptyPathsSpec.get "info").get "title").truthy = true ∧
    ((emptyPathsSpec.get "info").get "version").truthy = true ∧
    (emptyPathsSpec.get "paths").truthy = true ∧
    (emptyPathsSpec.get "paths").isObjectType = true :=
  (validateOpenAPISpec_characterization emptyPathsSpec).mp rfl

/-! ## Chat hook (`useChat`, packages/frontend/src/hooks/useChat.ts) -/

/-- JavaScript `String.prototype.trim`: strip leading and trailing
whitespace.  Implemented structurally over the character list so that it
evaluates inside the kernel. -/
def jsTrim (s : String) : String :=
  ⟨((s.data.dropWhile Char.isWhitespace).reverse.dropWhile Char.isWhitespace).reverse⟩

/-- Sender tag of a chat transcript entry. -/
inductive Sender where
  | user
  | assistant
deriving DecidableEq

/-- One entry of the chat hook's `messages` state.  `id` and `timestamp`
are derived from `Date.now()` at send time, modelled by an explicit clock
value. -/
structure ChatMsg where
  id : String
  content : String
  sender : Sender
  timestamp : Nat
  tools_used : Option (List String)
deriving DecidableEq

/-- The request body `useChat` posts to `/chat`. -/
structure ChatRequest where
  message : String
  session_id : String
deriving DecidableEq

/-- The gateway's chat response shape (`ChatResponse`): an answer string,
the list of tool names used, and the session id. -/
structure ChatResponse where
  response : String
  tools_used : List String
  session_id : String

/-- The component state owned by the `useChat` hook. -/
structure ChatState where
  messages : List ChatMsg
  isLoading : Bool
deriving DecidableEq

/-- The session id the hook attaches to a message sent when `Date.now()`
reads `now`: the template literal `session_${Date.now()}`. -/
def chatSessionId (now : Nat) : String :=
  "session_" ++ toString now

/-- The error shape produced by the api client's `handleError` (see below);
`message` is a JavaScript value, `status` is present only in the first two
branches. -/
structure ApiError where
  message : Json
  status : Option Nat
  details : Option Json

/-- One call of `useChat.sendMessage`, given the clock reading `now` and
the settled outcome `result` of the awaited `apiService.sendChatMessage`
call.  Returns the new hook state together with the request issued, if
any.  A blank message returns early (`if (!message.trim()) return`).  On
success, the assistant message carries `response.response` as content and
`response.tools_used` as its tools list; on failure the caught value is
the plain `ApiError` object — not an `Error` instance — so the fallback
text `Failed to send message` is rendered.  The `finally` block clears
`isLoading`. -/
def sendMessageStep (st : ChatState) (message : String) (now : Nat)
    (result : Except ApiError ChatResponse) : ChatState × Option ChatRequest :=
  if jsTrim message = "" then (st, none)
  else
    let userMessage : ChatMsg :=
      { id := toString now, content := message, sender := .user,
        timestamp := now, tools_used := none }
    let req : ChatRequest := { message := message, session_id := chatSessionId now }
    match result with
    | .ok resp =>
      ({ messages := st.messages ++ [userMessage,
           { id := toString (now + 1), content := resp.response, sender := .assistant,
             timestamp := now, tools_used := some resp.tools_used }],
         isLoading := false }, some req)
    | .error _ =>
      ({ messages := st.messages ++ [userMessage,
           { id := toString (now + 1), content := "Error: Failed to send message",
             sender := .assistant, timestamp := now, tools_used := none }],
         isLoading := false }, some req)

/-- C4: a successful chat call hands back the `ChatResponse` record —
answer string, tools used, session id — and the hook appends exactly one
assistant message, whose content is the returned answer and whose tools
list is the returned `tools_used`, after the echoed user message. -/
theorem sendMessage_success_appends_answer (st : ChatState) (message : String)
    (now : Nat) (resp : ChatResponse) (h : jsTrim message ≠ "") :
    (sendMessageStep st message now (.ok resp)).1.messages =
      st.messages ++
        [{ id := toString now, content := message, sender := .user,
           timestamp := now, tools_used := none },
         { id := toString (now + 1), content := resp.response, sender := .assistant,
           timestamp := now, tools_used := some resp.tools_used }] ∧
    (sendMessageStep st message now (.ok resp)).2 =
      some { message := message, session_id := chatSessionId now } := by
  simp [sendMessageStep, h]

/-- C4, witness: a concrete successful send at clock 7. -/
theorem sendMessage_success_appends_answer_witness :
    (sendMessageStep ⟨[], false⟩ "hello" 7
        (.ok ⟨"hi there", ["list_employees"], "user_session_123"⟩)).1.messages =
      [] ++
        [{ id := toString 7, content := "hello", sender := .user,
           timestamp := 7, tools_used := none },
         { id := toString (7 + 1), content := "hi there", sender := .assistant,
           timestamp := 7, tools_used := some ["list_employees"] }] ∧
    (sendMessageStep ⟨[], false⟩ "hello" 7
        (.ok ⟨"hi there", ["list_employees"], "user_session_123"⟩)).2 =
      some { message := "hello", session_id := chatSessionId 7 } :=
  sendMessage_success_appends_answer ⟨[], false⟩ "hello" 7
    ⟨"hi there", ["list_employees"], "user_session_123"⟩ (by decide)

/-- C5, counterexample: two consecutive messages of one conversation, sent
at clock readings 5 and 6, are posted with session ids `session_5` and
`session_6` — distinct sessions, not one shared session id. -/
theorem sendMessage_distinct_session_ids :
    (sendMessageStep ⟨[], false⟩ "first" 5 (.ok ⟨"a", [], "s"⟩)).2 =
      some { message := "first", session_id := "session_5" } ∧
    (sendMessageStep ⟨[], false⟩ "second" 6 (.ok ⟨"b", [], "s"⟩)).2 =
      some { message := "second", session_id := "session_6" } ∧
    (("session_5" == "session_6") : Bool) = false := by
  refine ⟨?_, ?_, ?_⟩ <;> rfl

/-- C5 (amended): the hook holds no per-conversation session id at all —
every request it issues carries `session_${Date.now()}`, a session id
recomputed from the clock at each call, so each sent message starts its
own backend session rather than appending to one shared session. -/
theorem sendMessage_session_id_from_clock (st : ChatState) (message : String)
    (now : Nat) (result : Except ApiError ChatResponse) (req : ChatRequest)
    (h : (sendMessageStep st message now result).2 = some req) :
    req.session_id = chatSessionId now := by
  by_cases hb : jsTrim message = ""
  · simp [sendMessageStep, hb] at h
  · cases result <;> simp [sendMessageStep, hb] at h <;> simp [← h]

/-- C5, witness: the amended statement at a concrete send. -/
theorem sendMessage_session_id_from_clock_witness :
    ({ message := "first", session_id := "session_5" } : ChatRequest).session_id =
      chatSessionId 5 :=
  sendMessage_session_id_from_clock ⟨[], false⟩ "first" 5 (.ok ⟨"a", [], "s"⟩)
    { message := "first", session_id := "session_5" } (by rfl)

/-- C9: sending a blank (empty or whitespace-only) message is a no-op: the
hook state — message list and loading flag — is unchanged and no request
is issued. -/
theorem sendMessage_blank_noop (st : ChatState) (message : String) (now : Nat)
    (result : Except ApiError ChatResponse) (h : jsTrim message = "") :
    sendMessageStep st message now result = (st, none) := by
  simp [sendMessageStep, h]

/-- C9, witness: a whitespace-only message at a concrete state. -/
theorem sendMessage_blank_noop_witness :
    sendMessageStep ⟨[], true⟩ "   " 3 (.ok ⟨"a", [], "s"⟩) = (⟨[], true⟩, none) :=
  sendMessage_blank_noop ⟨[], true⟩ "   " 3 (.ok ⟨"a", [], "s"⟩) (by decide)

/-! ## Service registration form
(`ServiceRegistrationForm`, packages/frontend/src/components/ServiceRegistrationForm.tsx) -/

/-- The `upload_method` radio selection. -/
inductive UploadMethod where
  | file
  | text
deriving DecidableEq

/-- The component's `formData` and `errors` state. -/
structure FormState where
  name : String
  base_url : String
  openapi_spec : Option Json
  upload_method : UploadMethod
  openapi_text : String
  errors : List (String × String)

/-- The initial `useState` values of the form. -/
def initFormState : FormState :=
  { name := "", base_url := "", openapi_spec := none,
    upload_method := .file, openapi_text := "", errors := [] }

/-- `setErrors(prev => ({ ...prev, key: msg }))`: overwrite one key of the
error record. -/
def setFormError (errors : List (String × String)) (k v : String) :
    List (String × String) :=
  (k, v) :: errors.filter (fun p => p.1 != k)

/-- The events the form reacts to.  `fileSelect` carries the settled
outcome of `apiService.uploadOpenAPIFile` (parsed JSON or a read/parse
failure message); `textChange` carries the textarea content together with
the result of `JSON.parse` on it. -/
inductive FormEvent where
  | setName (s : String)
  | setBaseUrl (s : String)
  | switchMethod (m : UploadMethod)
  | fileSelect (result : Except String Json)
  | textChange (text : String) (parsed : Option Json)

/-- One state transition of the form component: the `onChange` handlers,
`handleFileSelect` and `handleTextChange`.  A spec value is stored into
`openapi_spec` only after `apiService.validateOpenAPISpec` accepts it;
switching the upload method clears the stored spec. -/
def applyFormEvent (st : FormState) : FormEvent → FormState
  | .setName s => { st with name := s }
  | .setBaseUrl s => { st with base_url := s }
  | .switchMethod m =>
      { st with upload_method := m, openapi_spec := none, openapi_text := "" }
  | .fileSelect (.error msg) =>
      { st with errors := setFormError st.errors "openapi_spec" msg }
  | .fileSelect (.ok spec) =>
      if validateOpenAPISpec spec then
        { st with openapi_spec := some spec,
                  errors := setFormError st.errors "openapi_spec" "" }
      else
        { st with errors :=
            setFormError st.errors "openapi_spec" "Invalid OpenAPI specification" }
  | .textChange text parsed =>
      let st1 := { st with openapi_text := text }
      if jsTrim text = "" then st1
      else
        match parsed with
        | none =>
            { st1 with errors := setFormError st1.errors "openapi_text" "Invalid JSON format" }
        | some spec =>
            if validateOpenAPISpec spec then
              { st1 with openapi_spec := some spec,
                         errors := setFormError st1.errors "openapi_text" "" }
            else
              { st1 with errors :=
                  setFormError st1.errors "openapi_text" "Invalid OpenAPI specification" }

/-- The form state reached from the initial state by a sequence of user
events. -/
def runForm (events : List FormEvent) : FormState :=
  events.foldl applyFormEvent initFormState

/-- `validateForm`: the fresh `newErrors` record it builds.  `new URL(...)`
is abstracted by the `urlParses` predicate, applied — as in the source — to
the untrimmed `base_url`. -/
def validateForm (urlParses : String → Bool) (st : FormState) :
    List (String × String) :=
  (if jsTrim st.name = "" then [("name", "Service name is required")] else []) ++
  (if jsTrim st.base_url = "" then [("base_url", "Base URL is required")]
   else if urlParses st.base_url then []
   else [("base_url", "Please enter a valid URL")]) ++
  (match st.openapi_spec with
   | some _ => []
   | none =>
     match st.upload_method with
     | .file => [("openapi_spec", "Please upload an OpenAPI specification file")]
     | .text => [("openapi_text", "Please provide OpenAPI specification text")])

/-- The body of the `/register-service` request. -/
structure ServiceConfig where
  name : String
  base_url : String
  openapi_spec : Json

/-- `handleSubmit`: returns the registration request issued, if any.  When
`validateForm` reports any error the submission stops before any request
is made; otherwise the trimmed name and base URL and the stored spec are
posted. -/
def handleSubmit (urlParses : String → Bool) (st : FormState) :
    Option ServiceConfig :=
  if (validateForm urlParses st).isEmpty then
    match st.openapi_spec with
    | some spec => some { name := jsTrim st.name, base_url := jsTrim st.base_url,
                          openapi_spec := spec }
    | none => none
  else none

/-- Invariant: every spec the form has stored passed client validation. -/
theorem runForm_spec_validated (events : List FormEvent) (j : Json)
    (h : (runForm events).openapi_spec = some j) :
    validateOpenAPISpec j = true := by
  suffices H : ∀ (st : FormState),
      (∀ j0, st.openapi_spec = some j0 → validateOpenAPISpec j0 = true) →
      ∀ j0, (events.foldl applyFormEvent st).openapi_spec = some j0 →
        validateOpenAPISpec j0 = true by
    exact H initFormState (by intro j0 h0; simp [initFormState] at h0) j h
  clear h
  induction events with
  | nil => intro st hst j0 h0; exact hst j0 h0
  | cons e rest ih =>
    intro st hst j0 h0
    refine ih (applyFormEvent st e) ?_ j0 h0
    intro j1 h1
    cases e with
    | setName s => exact hst j1 h1
    | setBaseUrl s => exact hst j1 h1
    | switchMethod m => simp [applyFormEvent] at h1
    | fileSelect result =>
      cases result with
      | error msg => exact hst j1 h1
      | ok spec =>
        by_cases hv : validateOpenAPISpec spec = true
        · simp [applyFormEvent, hv] at h1
          exact h1 ▸ hv
        · simp [applyFormEvent, Bool.not_eq_true _ ▸ hv,
            eq_false_of_ne_true hv] at h1
          exact hst j1 h1
    | textChange text parsed =>
      by_cases hb : jsTrim text = ""
      · simp [applyFormEvent, hb] at h1
        exact hst j1 h1
      · cases parsed with
        | none =>
          simp [applyFormEvent, hb] at h1
          exact hst j1 h1
        | some spec =>
          by_cases hv : validateOpenAPISpec spec = true
          · simp [applyFormEvent, hb, hv] at h1
            exact h1 ▸ hv
          · simp [applyFormEvent, hb, eq_false_of_ne_true hv] at h1
            exact hst j1 h1

/-- C3: in any state the form can reach, a `/register-service` request is
issued only with a non-empty (trimmed) service name, a base URL accepted
by the URL parser, and a stored OpenAPI spec that passed
`validateOpenAPISpec`; a spec rejected by validation is never stored, so
no registration request ever carries one. -/
theorem registration_request_requires_valid_inputs
    (urlParses : String → Bool) (events : List FormEvent) (cfg : ServiceConfig)
    (h : handleSubmit urlParses (runForm events) = some cfg) :
    cfg.name ≠ "" ∧
    urlParses (runForm events).base_url = true ∧
    validateOpenAPISpec cfg.openapi_spec = true ∧
    (runForm events).openapi_spec = some cfg.openapi_spec := by
  unfold handleSubmit at h
  split at h
  case isFalse => exact absurd h (by simp)
  case isTrue hval =>
    rcases hspec : (runForm events).openapi_spec with _ | spec
    · rw [hspec] at h; exact absurd h (by simp)
    · rw [hspec] at h
      simp only [Option.some.injEq] at h
      subst h
      simp only [validateForm, List.isEmpty_eq_true, List.append_eq_nil] at hval
      obtain ⟨⟨hname, hurl⟩, -⟩ := hval
      refine ⟨?_, ?_, ?_, ?_⟩
      · show jsTrim (runForm events).name ≠ ""
        intro hcontra
        rw [hcontra] at hname
        simp at hname
      · by_cases hbu : jsTrim (runForm events).base_url = ""
        · simp [hbu] at hurl
        · simp [hbu] at hurl
          by_cases hp : urlParses (runForm events).base_url = true
          · exact hp
          · simp [eq_false_of_ne_true hp] at hurl
      · show validateOpenAPISpec spec = true
        exact runForm_spec_validated events spec hspec
      · rfl

/-- A well-formed demo spec with one GET operation. -/
def demoSpec : Json :=
  .obj [("openapi", .str "3.1.0"),
        ("info", .obj [("title", .str "Users API"), ("version", .str "1.0.0")]),
        ("paths", .obj [("/users", .obj [("get", .obj [("operationId", .str "list_users")])])])]

/-- The event sequence of a successful manual registration. -/
def demoFormEvents : List FormEvent :=
  [FormEvent.setName "users",
   FormEvent.setBaseUrl "https://x.test",
   FormEvent.switchMethod .text,
   FormEvent.textChange "paste" (some demoSpec)]

/-- The request the demo flow submits. -/
def demoServiceConfig : ServiceConfig :=
  { name := "users", base_url := "https://x.test", openapi_spec := demoSpec }

/-- C3, witness: the concrete registration flow issues a request, and the
theorem yields the guarantees at it. -/
theorem registration_request_requires_valid_inputs_witness :
    demoServiceConfig.name ≠ "" ∧
    (fun _ => true) (runForm demoFormEvents).base_url = true ∧
    validateOpenAPISpec demoServiceConfig.openapi_spec = true ∧
    (runForm demoFormEvents).openapi_spec = some demoServiceConfig.openapi_spec :=
  registration_request_requires_valid_inputs (fun _ => true) demoFormEvents
    demoServiceConfig (by rfl)

/-! ## Api client error handling
(`ApiService.handleError` and `setupInterceptors`,
packages/frontend/src/services/api.ts) -/

/-- The shape of an axios rejection value as `handleError` and the
response interceptor inspect it: an optional server response (status code
plus response body), the `error.request` marker recording whether a
request was actually sent, and the error's own `message`. -/
structure AxiosFailure where
  response : Option (Nat × Json)
  hasRequest : Bool
  message : String

/-- JavaScript `a || b` on values, as used in
`error.response.data?.detail || error.response.data?.message || '...'`. -/
def jsOr (a b : Json) : Json :=
  if a.truthy then a else b

/-- `ApiService.handleError`: a server response yields its status and a
message drawn from `data.detail`/`data.message` with a `'Server error'`
fallback; a request without any response yields the fixed network-error
message with status 0; anything else yields only the error's own message
(default `'An unexpected error occurred'`) and no status. -/
def handleError (e : AxiosFailure) : ApiError :=
  match e.response with
  | some (st, data) =>
    { message := jsOr (data.get "detail") (jsOr (data.get "message") (.str "Server error")),
      status := some st,
      details := some data }
  | none =>
    if e.hasRequest then
      { message := .str "Network error - please check your connection",
        status := some 0, details := none }
    else
      { message := .str (if e.message = "" then "An unexpected error occurred" else e.message),
        status := none, details := none }

/-- A failure thrown before any request was issued (for example inside a
request interceptor): no response, no request marker. -/
def setupFailure : AxiosFailure :=
  { response := none, hasRequest := false, message := "boom" }

/-- C6, counterexample: for a failure with no response and no issued
request, `handleError` forwards the raw error's own message and attaches
no status at all — not the generic network-error message with status 0
the claim promises for every no-response failure. -/
theorem handleError_setup_branch_counterexample :
    (handleError setupFailure).status = none ∧
    (handleError setupFailure).message = Json.str "boom" := by
  constructor <;> rfl

/-- C6 (amended): every failure is mapped to a structured `ApiError` whose
message is a truthy (non-empty) value; when the server responded the HTTP
status code is attached; when a request was sent but no response was
received the error is the generic network-error message with status 0; a
failure raised before any request was issued keeps only its own message
and carries no status code. -/
theorem handleError_structured (e : AxiosFailure) :
    (handleError e).message.truthy = true ∧
    (∀ st data, e.response = some (st, data) → (handleError e).status = some st) ∧
    (e.response = none → e.hasRequest = true →
      (handleError e).status = some 0 ∧
      (handleError e).message = Json.str "Network error - please check your connection") ∧
    (e.response = none → e.hasRequest = false → (handleError e).status = none) := by
  obtain ⟨resp, hasReq, msg⟩ := e
  rcases resp with _ | ⟨st, data⟩
  · cases hasReq
    · refine ⟨?_, ?_, ?_, ?_⟩
      · by_cases hm : msg = "" <;>
          simp [handleError, Json.truthy, hm]
      · intro st data hcontra; simp at hcontra
      · intro _ hcontra; simp at hcontra
      · intro _ _; simp [handleError]
    · refine ⟨?_, ?_, ?_, ?_⟩
      · simp [handleError, Json.truthy]
      · intro st data hcontra; simp at hcontra
      · intro _ _; exact ⟨rfl, rfl⟩
      · intro _ hcontra; simp at hcontra
  · refine ⟨?_, ?_, ?_, ?_⟩
    · unfold handleError jsOr
      dsimp only
      split
      · assumption
      · split
        · assumption
        · rfl
    · intro st2 data2 hr
      simp only [Option.some.injEq, Prod.mk.injEq] at hr
      simp [handleError, hr.1]
    · intro hcontra; simp at hcontra
    · intro hcontra; simp at hcontra

/-- C6, witness: the amended statement instantiated at a server 500
response whose body has a `detail` field. -/
theorem handleError_structured_witness :
    (handleError { response := some (500, .obj [("detail", .str "bad")]),
                   hasRequest := true, message := "Request failed" }).message.truthy = true ∧
    (handleError { response := some (500, .obj [("detail", .str "bad")]),
                   hasRequest := true, message := "Request failed" }).status = some 500 :=
  ⟨(handleError_structured _).1,
   (handleError_structured _).2.1 500 (.obj [("detail", .str "bad")]) rfl⟩

/-! ## Response interceptor retry discipline (`setupInterceptors`) -/

/-- The settled outcome of one wire-level attempt of a request. -/
inductive HttpOutcome where
  | ok (data : Json)
  | err (e : AxiosFailure)

/-- `error.response?.status === 401`. -/
def is401 (e : AxiosFailure) : Bool :=
  match e.response with
  | some (st, _) => st == 401
  | none => false

/-- What a request settles to after the interceptor pipeline: a success
value, the raw axios failure (the 401-refresh-failed path rejects the
original error object unprocessed), or a structured `ApiError` built by
`handleError`. -/
inductive RequestOutcome where
  | success (data : Json)
  | rawReject (e : AxiosFailure)
  | apiFailure (err : ApiError)

/-- The re-dispatch `this.client(originalRequest)` performed with
`_retry = true` already set: the response interceptor runs again, but the
retry branch is now disabled, so any failure — 401 included — goes
straight to `handleError`.  `outcomes k` is the wire outcome of attempt
`k`; the second component counts attempts actually issued. -/
def retriedDispatch (outcomes : Nat → HttpOutcome) (k : Nat) :
    RequestOutcome × Nat :=
  match outcomes k with
  | .ok d => (.success d, 1)
  | .err e => (.apiFailure (handleError e), 1)

/-- One client request through the response interceptor, starting with
`_retry` unset.  A 401 with a successful token refresh re-issues the
original request exactly once; a 401 whose refresh path fails rejects the
raw error after redirecting to login; every other failure is mapped by
`handleError`. -/
def clientDispatch (refreshOk tokenAvailable : Bool)
    (outcomes : Nat → HttpOutcome) : RequestOutcome × Nat :=
  match outcomes 0 with
  | .ok d => (.success d, 1)
  | .err e =>
    if is401 e then
      if refreshOk && tokenAvailable then
        let r := retriedDispatch outcomes 1
        (r.1, r.2 + 1)
      else (.rawReject e, 1)
    else (.apiFailure (handleError e), 1)

/-- C8: the interceptor re-issues a failed request at most once — no run
of `clientDispatch` performs more than two attempts — and when both the
original attempt and the retry come back 401 (with the refresh path
available), the second 401 is surfaced as the structured error of the
retried attempt, with no further retry. -/
theorem retry_at_most_once (refreshOk tokenAvailable : Bool)
    (outcomes : Nat → HttpOutcome) :
    (clientDispatch refreshOk tokenAvailable outcomes).2 ≤ 2 ∧
    (∀ e1 e2, outcomes 0 = .err e1 → outcomes 1 = .err e2 →
      is401 e1 = true → is401 e2 = true →
      clientDispatch true true outcomes =
        (.apiFailure (handleError e2), 2)) := by
  constructor
  · unfold clientDispatch retriedDispatch
    rcases outcomes 0 with d | e
    · simp
    · dsimp only
      split
      · split
        · rcases outcomes 1 with d | e2 <;> simp
        · simp
      · simp
  · intro e1 e2 h0 h1 h401a h401b
    unfold clientDispatch retriedDispatch
    rw [h0, h1]
    simp [h401a]

/-- A concrete 401 failure. -/
def unauthorizedFailure : AxiosFailure :=
  { response := some (401, .obj [("detail", .str "Unauthorized")]),
    hasRequest := true, message := "Request failed with status code 401" }

/-- C8, witness: with every attempt answering 401, exactly two attempts
are made and the second 401 surfaces as a structured error. -/
theorem retry_at_most_once_witness :
    (clientDispatch true true (fun _ => .err unauthorizedFailure)).2 ≤ 2 ∧
    clientDispatch true true (fun _ => .err unauthorizedFailure) =
      (.apiFailure (handleError unauthorizedFailure), 2) :=
  ⟨(retry_at_most_once true true (fun _ => .err unauthorizedFailure)).1,
   (retry_at_most_once true true (fun _ => .err unauthorizedFailure)).2
     unauthorizedFailure unauthorizedFailure rfl rfl rfl rfl⟩

/-! ## Authentication facade (packages/frontend/src/services/keycloak.ts) -/

/-- The module-level mock auth state: `mockAuthenticated` and `mockToken`. -/
structure AuthState where
  authenticated : Bool
  token : String
deriving DecidableEq

/-- The initial module state: authenticated with the mock token. -/
def initAuthState : AuthState :=
  { authenticated := true, token := "mock-jwt-token" }

/-- `login()`: sets `mockAuthenticated = true` and touches nothing else —
in particular it does not restore the token. -/
def authLogin (s : AuthState) : AuthState :=
  { s with authenticated := true }

/-- `logout()`: clears both the flag and the token. -/
def authLogout (_ : AuthState) : AuthState :=
  { authenticated := false, token := "" }

/-- `getToken()`: the current token while authenticated, `undefined`
otherwise. -/
def getToken (s : AuthState) : Option String :=
  if s.authenticated then some s.token else none

/-- `isAuthenticated()`. -/
def isAuthenticated (s : AuthState) : Bool :=
  s.authenticated

/-- A call to one of the facade's mutating operations. -/
inductive AuthOp where
  | login
  | logout
deriving DecidableEq

/-- Interpret one facade call. -/
def applyAuthOp (s : AuthState) : AuthOp → AuthState
  | .login => authLogin s
  | .logout => authLogout s

/-- The facade state after an arbitrary interleaving of `login()` and
`logout()` calls starting from module initialisation. -/
def runAuth (ops : List AuthOp) : AuthState :=
  ops.foldl applyAuthOp initAuthState

/-- C10, counterexample: after `logout()` followed by `login()`,
`isAuthenticated()` is true while `getToken()` returns the empty string —
`login()` never restores the token — so "non-empty token iff
authenticated" fails on this interleaving. -/
theorem getToken_empty_after_relogin :
    isAuthenticated (runAuth [AuthOp.logout, AuthOp.login]) = true ∧
    getToken (runAuth [AuthOp.logout, AuthOp.login]) = some "" := by
  constructor <;> rfl

/-- C10 (amended): across every interleaving of `login()` and `logout()`
the facade keeps the weaker equivalence "`getToken()` returns a defined
token iff `isAuthenticated()` is true"; the token's non-emptiness is not
preserved, since `login()` after `logout()` re-authenticates without
restoring a token. -/
theorem getToken_defined_iff_authenticated (ops : List AuthOp) :
    (getToken (runAuth ops)).isSome = isAuthenticated (runAuth ops) := by
  rcases h : (runAuth ops).authenticated with _ | _ <;>
    simp [getToken, isAuthenticated, h]

/-! ## Orchestration loop bound

The reasoning-and-acting loop runs in the Python backend
(`mcp_client_manager.py`), which is not part of this tree; only
`packages/backend/CONFIGURATION.md` documents it. -/

/-- Modelled from the spec: the agent configuration of the backend that is
missing from the tree; `AGENT_MAX_ITERATIONS` caps the reasoning loop and
`packages/backend/CONFIGURATION.md` documents its default as `15`. -/
structure AgentConfig where
  maxIterations : Nat

/-- Modelled from the spec: the documented default configuration,
`AGENT_MAX_ITERATIONS = 15`. -/
def defaultAgentConfig : AgentConfig :=
  { maxIterations := 15 }

/-- Modelled from the spec: what the language-model capability returns to
one Think step — either a final answer or a batch of tool calls. -/
inductive ModelDecision where
  | finish (answer : String)
  | act (tools : List String)

/-- The outcome of one orchestration turn: the answer, the tools used, how
many Think iterations ran, and whether the loop was force-finished at the
cap. -/
structure LoopResult where
  answer : String
  toolsUsed : List String
  iterations : Nat
  forced : Bool

/-- Modelled from the spec: the bounded Think/Act/Observe loop of §4.6,
with the missing backend agent's iteration budget as fuel.  `oracle i` is
the model's decision at Think step `i`; exhausting the budget transitions
directly to a forced Finish. -/
def runLoopAux (oracle : Nat → ModelDecision) :
    Nat → Nat → List String → LoopResult
  | 0, iter, used =>
    { answer := "Agent stopped due to iteration limit.", toolsUsed := used,
      iterations := iter, forced := true }
  | fuel + 1, iter, used =>
    match oracle iter with
    | .finish a =>
      { answer := a, toolsUsed := used, iterations := iter + 1, forced := false }
    | .act tools => runLoopAux oracle fuel (iter + 1) (used ++ tools)

/-- Modelled from the spec: one orchestration turn under a configuration. -/
def runLoop (oracle : Nat → ModelDecision) (cfg : AgentConfig) : LoopResult :=
  runLoopAux oracle cfg.maxIterations 0 []

/-- The Think steps a partial run can still add are bounded by its
remaining fuel. -/
theorem runLoopAux_iterations_le (oracle : Nat → ModelDecision) :
    ∀ (fuel iter : Nat) (used : List String),
      (runLoopAux oracle fuel iter used).iterations ≤ iter + fuel := by
  intro fuel
  induction fuel with
  | zero => intro iter used; simp [runLoopAux]
  | succ fuel ih =>
    intro iter used
    unfold runLoopAux
    rcases oracle iter with a | tools
    · dsimp only
      omega
    · dsimp only
      calc (runLoopAux oracle fuel (iter + 1) (used ++ tools)).iterations
          ≤ (iter + 1) + fuel := ih (iter + 1) (used ++ tools)
        _ = iter + (fuel + 1) := by omega

/-- C2: whatever the model decides at each step, an orchestration turn
never runs more Think iterations than the configured cap, and the default
cap is 15. -/
theorem orchestration_loop_bounded (oracle : Nat → ModelDecision)
    (cfg : AgentConfig) :
    (runLoop oracle cfg).iterations ≤ cfg.maxIterations ∧
    defaultAgentConfig.maxIterations = 15 := by
  refine ⟨?_, rfl⟩
  simpa using runLoopAux_iterations_le oracle cfg.maxIterations 0 []

/-! ## Endpoint registry address allocation

The registry lives in the Python backend (`openapi_mcp_generator.py`),
which is not part of this tree; `ARCHITECTURE.md` documents its
`active_servers` map and monotonically increasing `port_counter`
(servers at ports 9000, 9001, ...), and spec §4.4 its register/deregister
contract. -/

/-- Modelled from the spec: the state of the missing backend registry —
ARCHITECTURE.md's `OpenAPIMCPGenerator` with its `port_counter` and the
live `active_servers` map, here an association list from service name to
assigned address. -/
structure Registry where
  portCounter : Nat
  live : List (String × Nat)

/-- Modelled from the spec: the initial registry, counting from base port
9000 with no live endpoints. -/
def initRegistry : Registry :=
  { portCounter := 9000, live := [] }

/-- Modelled from the spec: `register(name, ...)` of §4.4 — a duplicate
non-stopped name is refused; otherwise the next address is allocated from
the monotonically increasing counter and the endpoint becomes live. -/
def registerService (r : Registry) (name : String) : Registry × Option Nat :=
  if (r.live.lookup name).isSome then (r, none)
  else ({ portCounter := r.portCounter + 1,
          live := (name, r.portCounter) :: r.live }, some r.portCounter)

/-- Modelled from the spec: `deregister(name)` of §4.4 — an absent name is
refused; otherwise the endpoint is stopped, its address leaves the live
set, and the call acknowledges. -/
def deregisterService (r : Registry) (name : String) : Registry × Bool :=
  if (r.live.lookup name).isSome then
    ({ r with live := r.live.filter (fun q => q.1 != name) }, true)
  else (r, false)

/-- One registry mutation. -/
inductive RegistryOp where
  | reg (name : String)
  | dereg (name : String)

/-- Interpret one mutation (discarding the reply). -/
def applyRegistryOp (r : Registry) : RegistryOp → Registry
  | .reg n => (registerService r n).1
  | .dereg n => (deregisterService r n).1

/-- The registry state after a sequence of register/deregister calls. -/
def runRegistry (ops : List RegistryOp) : Registry :=
  ops.foldl applyRegistryOp initRegistry

/-- The allocation invariant: every live address was handed out below the
counter, and live addresses are pairwise distinct. -/
def RegistryInv (r : Registry) : Prop :=
  (∀ q ∈ r.live, q.2 < r.portCounter) ∧ (r.live.map Prod.snd).Nodup

/-- Each operation preserves the allocation invariant. -/
theorem registryInv_apply (r : Registry) (o : RegistryOp)
    (h : RegistryInv r) : RegistryInv (applyRegistryOp r o) := by
  obtain ⟨hb, hn⟩ := h
  cases o with
  | reg n =>
    unfold applyRegistryOp registerService
    dsimp only
    split
    · exact ⟨hb, hn⟩
    · constructor
      · intro q hq
        rcases List.mem_cons.mp hq with rfl | hq
        · exact Nat.lt_succ_self _
        · exact Nat.lt_trans (hb q hq) (Nat.lt_succ_self _)
      · rw [List.map_cons, List.nodup_cons]
        refine ⟨?_, hn⟩
        intro hmem
        obtain ⟨q, hq, hq2⟩ := List.mem_map.mp hmem
        have hq2' : q.2 = r.portCounter := hq2
        exact absurd hq2' (Nat.ne_of_lt (hb q hq))
  | dereg n =>
    unfold applyRegistryOp deregisterService
    dsimp only
    split
    · constructor
      · intro q hq
        exact hb q (List.mem_of_mem_filter hq)
      · exact List.Nodup.sublist ((List.filter_sublist r.live).map Prod.snd) hn
    · exact ⟨hb, hn⟩

/-- The allocation invariant holds in every reachable registry state. -/
theorem registryInv_run (ops : List RegistryOp) :
    RegistryInv (runRegistry ops) := by
  unfold runRegistry
  have H : ∀ (r : Registry), RegistryInv r →
      RegistryInv (ops.foldl applyRegistryOp r) := by
    induction ops with
    | nil => intro r h; exact h
    | cons o rest ih =>
      intro r h
      exact ih _ (registryInv_apply r o h)
  refine H initRegistry ⟨?_, ?_⟩ <;> simp [initRegistry]

/-- An address strictly below the counter and absent from the live set
stays absent (and below the counter) across any further operation. -/
theorem address_stays_free_apply (r : Registry) (o : RegistryOp) (p : Nat)
    (h1 : p < r.portCounter) (h2 : p ∉ r.live.map Prod.snd) :
    p < (applyRegistryOp r o).portCounter ∧
    p ∉ (applyRegistryOp r o).live.map Prod.snd := by
  cases o with
  | reg n =>
    unfold applyRegistryOp registerService
    dsimp only
    split
    · exact ⟨h1, h2⟩
    · refine ⟨Nat.lt_trans h1 (Nat.lt_succ_self _), ?_⟩
      rw [List.map_cons, List.mem_cons]
      rintro (rfl | hmem)
      · exact absurd rfl (Nat.ne_of_lt h1)
      · exact h2 hmem
  | dereg n =>
    unfold applyRegistryOp deregisterService
    dsimp only
    split
    · refine ⟨h1, ?_⟩
      intro hmem
      exact h2 ((List.Sublist.map Prod.snd (List.filter_sublist r.live)).subset hmem)
    · exact ⟨h1, h2⟩

/-- An address strictly below the counter and absent from the live set
stays absent across any further operation sequence. -/
theorem address_stays_free (tail : List RegistryOp) :
    ∀ (r : Registry) (p : Nat), p < r.portCounter → p ∉ r.live.map Prod.snd →
      p ∉ (tail.foldl applyRegistryOp r).live.map Prod.snd := by
  induction tail with
  | nil => intro r p _ h2; exact h2
  | cons o rest ih =>
    intro r p h1 h2
    obtain ⟨h1', h2'⟩ := address_stays_free_apply r o p h1 h2
    exact ih _ p h1' h2'

/-- Membership of a key yields a successful lookup. -/
theorem lookup_isSome_of_mem {a : String} {b : Nat} :
    ∀ {l : List (String × Nat)}, (a, b) ∈ l → (l.lookup a).isSome = true := by
  intro l
  induction l with
  | nil => intro h; simp at h
  | cons q rest ih =>
    intro h
    rcases q with ⟨k, v⟩
    by_cases hk : (a == k) = true
    · simp [List.lookup, hk]
    · have hmem : (a, b) ∈ rest := by
        rcases List.mem_cons.mp h with heq | hmem
        · exfalso
          have h1 : a = k := congrArg Prod.fst heq
          rw [h1] at hk
          simp at hk
        · exact hmem
      simp only [List.lookup, hk, if_false]
      exact ih hmem

/-- C7 (amended): after `deregister(name)` acknowledges, the service's
previously assigned address has left the registry's live set — and it is
never assigned again: whatever register/deregister calls follow, the
monotonically increasing counter only hands out fresh, strictly larger
addresses, so the freed address is not reused. -/
theorem deregistered_address_not_reused (ops tail : List RegistryOp)
    (name : String) (p : Nat)
    (h : (name, p) ∈ (runRegistry ops).live) :
    (deregisterService (runRegistry ops) name).2 = true ∧
    p ∉ (runRegistry (ops ++ RegistryOp.dereg name :: tail)).live.map Prod.snd := by
  obtain ⟨hb, hn⟩ := registryInv_run ops
  have hlk := lookup_isSome_of_mem h
  constructor
  · unfold deregisterService
    rw [if_pos hlk]
  · have hstep : runRegistry (ops ++ RegistryOp.dereg name :: tail) =
        tail.foldl applyRegistryOp
          (applyRegistryOp (runRegistry ops) (RegistryOp.dereg name)) := by
      unfold runRegistry
      rw [List.foldl_append, List.foldl_cons]
    rw [hstep]
    have hfree : p ∉ (applyRegistryOp (runRegistry ops)
        (RegistryOp.dereg name)).live.map Prod.snd := by
      unfold applyRegistryOp deregisterService
      dsimp only
      rw [if_pos hlk]
      intro hmem
      obtain ⟨q, hq, hq2⟩ := List.mem_map.mp hmem
      have hq' : q ∈ (runRegistry ops).live := List.mem_of_mem_filter hq
      have heq : (name, p) = q :=
        List.inj_on_of_nodup_map hn h hq' (by simpa using hq2.symm)
      rw [← heq] at hq
      have := List.of_mem_filter hq
      simp at this
    have hlt : p < (applyRegistryOp (runRegistry ops)
        (RegistryOp.dereg name)).portCounter := by
      have hp := hb (name, p) h
      unfold applyRegistryOp deregisterService
      dsimp only
      rw [if_pos hlk]
      exact hp
    exact address_stays_free tail _ p hlt hfree

/-- C7, witness: registering `users`, deregistering it and registering a
second service: the theorem applies at this concrete run. -/
theorem deregistered_address_not_reused_witness :
    (deregisterService (runRegistry [RegistryOp.reg "users"]) "users").2 = true ∧
    9000 ∉ (runRegistry ([RegistryOp.reg "users"] ++
      RegistryOp.dereg "users" :: [RegistryOp.reg "orders"])).live.map Prod.snd :=
  deregistered_address_not_reused [RegistryOp.reg "users"] [RegistryOp.reg "orders"]
    "users" 9000 (by simp [runRegistry, initRegistry, registerService, applyRegistryOp])

/-- C7, counterexample: in the concrete run register `users` (assigned
9000), deregister `users`, register `orders`, the subsequent registration
is assigned the fresh address 9001, and 9000 is bound to nobody — the
freed address is not in fact reused by a subsequent register. -/
theorem subsequent_register_gets_fresh_address :
    (runRegistry [RegistryOp.reg "users", RegistryOp.dereg "users",
       RegistryOp.reg "orders"]).live = [("orders", 9001)] ∧
    ((runRegistry [RegistryOp.reg "users", RegistryOp.dereg "users",
       RegistryOp.reg "orders"]).live.map Prod.snd).contains 9000 = false := by
  constructor <;> rfl
